import Mathlib

set_option maxRecDepth 10000

/-!
Shallow embedding of `HighLevelAnalyzer.py` (class `HLA_WINCS02_SPI`), a
streaming SPI protocol decoder.  Python attributes that may be unset are
modelled as `Option`; Python run-time exceptions (AttributeError on a
missing attribute, TypeError on `None |= int`, IndexError on `b''[0]`)
are modelled as `Except.error`.  Machine bytes are `Nat` with the masks
written exactly as in the source.
-/

/-- Python values that flow through the decoder: ints, bytes objects,
strings and `None`.  Needed because the source mixes `bytes` constants
(`WRITE_INS = b'\x02'`) with int values, and Python `==` across those
types is `False`. -/
inductive PyVal where
  | int : Nat → PyVal
  | bytes : List Nat → PyVal
  | str : String → PyVal
  | none : PyVal
deriving DecidableEq, Repr

/-- Python `==` on the values above: structural within one type,
`False` across types (in particular `int == bytes` is `False`). -/
def pyEq : PyVal → PyVal → Bool
  | PyVal.int a, PyVal.int b => decide (a = b)
  | PyVal.bytes a, PyVal.bytes b => decide (a = b)
  | PyVal.str a, PyVal.str b => decide (a = b)
  | PyVal.none, PyVal.none => true
  | _, _ => false

/-- Python `hex(n)` for a nonnegative int: `0x` followed by lowercase
hexadecimal digits. -/
def pyHex (n : Nat) : String := "0x" ++ (Nat.toDigits 16 n).asString

/- Instruction-set constants from the source: `bytes` literals. -/

def WRITE_INS : PyVal := PyVal.bytes [0x02]

def READ_INS : PyVal := PyVal.bytes [0x03]

def RMDR_INS : PyVal := PyVal.bytes [0x05]

def WRMR_INS : PyVal := PyVal.bytes [0x01]

/- Operation-mode constants from the source: ints. -/

def BYTE_MODE : Nat := 0x00

def PAGE_MODE : Nat := 0x02

def SEQUENTIAL_MODE : Nat := 0x01

def RESERVED : Nat := 0x03

/- Analyzer state constants from the source. -/

def START : Nat := 0

def GET_CMD : Nat := 1

def GET_INS : Nat := 2

def GET_ADDR_0 : Nat := 3

def GET_ADDR_1 : Nat := 4

def GET_ADDR_2 : Nat := 5

def GET_ADDR_3 : Nat := 6

def GET_DATA : Nat := 7

def GET_REGVAL : Nat := 8

def UNKNOWN : Nat := 9

/-- Input SPI frame handed to `decode`: `frame.type` is one of
`enable`, `result`, `disable`; `mosi` is the byte list of
`frame.data['mosi']`; timestamps are abstracted as naturals. -/
structure Frame where
  type : String
  mosi : List Nat
  start_time : Nat
  end_time : Nat
deriving DecidableEq, Repr

/-- Output `AnalyzerFrame(type, start_time, end_time, data)`; the data
dict is a list of key/value pairs. -/
structure AnalyzerFrame where
  type : String
  start_time : Nat
  end_time : Nat
  data : List (String × PyVal)
deriving DecidableEq, Repr

/-- Mutable attributes of the `HLA_WINCS02_SPI` object.  Each field is
`Option`-wrapped: `Option.none` means the Python attribute has never
been assigned (reading it raises AttributeError). -/
structure HLAState where
  state : Option Nat
  instruction : Option PyVal
  address : Option PyVal
  data : Option PyVal
  address_frame_start : Option Nat
deriving DecidableEq, Repr

/-- State of a freshly constructed analyzer.  The source's `__init__`
assigns the local variable `state = START`, not `self.state`, so no
attribute at all is set on the object. -/
def initHLA : HLAState :=
  ⟨Option.none, Option.none, Option.none, Option.none, Option.none⟩

/-- Method `instruction_str` of the source: compares its argument with
the `bytes` constants `WRITE_INS` .. `RMDR_INS` using Python `==`. -/
def instruction_str (instruction : PyVal) : String :=
  if pyEq instruction WRITE_INS then ("Write")
  else if pyEq instruction READ_INS then ("Read")
  else if pyEq instruction WRMR_INS then ("Write Mode Register")
  else if pyEq instruction RMDR_INS then ("Read Mode Register")
  else ("Unknown")

/-- Method `decode_mode` of the source: the mode is in bits 7 and 6 of
the mode-register value. -/
def decode_mode (mode_register : Nat) : Nat :=
  (mode_register &&& 0xc0) >>> 6

/-- Method `mode_str` of the source: an if/elif chain with no final
else, so any mode other than `BYTE_MODE`, `PAGE_MODE` and
`SEQUENTIAL_MODE` falls through and returns Python `None`
(modelled as `Option.none`). -/
def mode_str (mode : Nat) : Option String :=
  if mode = BYTE_MODE then some ("Byte")
  else if mode = PAGE_MODE then some ("Page")
  else if mode = SEQUENTIAL_MODE then some ("Sequential")
  else Option.none

/-- Method `decode` of the source, one input frame at a time.
Returns the updated attribute record and the optionally emitted
`AnalyzerFrame`, or the Python exception raised. -/
def decode (s : HLAState) (frame : Frame) : Except String (HLAState × Option AnalyzerFrame) :=
  if frame.type = "enable" then
    Except.ok ({ s with state := some START }, Option.none)
  else if frame.type = "result" then
    match s.state with
    | Option.none => Except.error ("AttributeError: state")
    | some st =>
      if st = START then
        Except.ok ({ s with
            instruction := some (PyVal.bytes frame.mosi),
            address := some PyVal.none,
            data := some (PyVal.bytes []),
            state := some GET_CMD },
          some ⟨"Header", frame.start_time, frame.end_time,
            [("header", PyVal.str ("Head"))]⟩)
      else if st = GET_CMD then
        match frame.mosi with
        | [] => Except.error ("IndexError")
        | b :: _ =>
          -- net effect of the branch: instruction is first set to the
          -- raw byte, then overwritten with the masked byte; the
          -- emitted payload bytes([self.instruction])[0] is that
          -- masked byte
          Except.ok ({ s with
              instruction := some (PyVal.int (b &&& 0x3F)),
              address := some PyVal.none,
              data := some (PyVal.int b),
              state := some GET_ADDR_0 },
            some ⟨"Instruction", frame.start_time, frame.end_time,
              [("instruction", PyVal.int (b &&& 0x3F))]⟩)
      else if st = GET_ADDR_0 then
        match frame.mosi with
        | [] => Except.error ("IndexError")
        | b :: _ =>
          -- self.address = (b & 0x70) << 24 ; self.address |= (b & 0x03) << 15
          Except.ok ({ s with
              address := some (PyVal.int (((b &&& 0x70) <<< 24) ||| ((b &&& 0x03) <<< 15))),
              address_frame_start := some frame.start_time,
              state := some GET_ADDR_1 },
            Option.none)
      else if st = GET_ADDR_1 then
        match frame.mosi with
        | [] => Except.error ("IndexError")
        | b :: _ =>
          match s.address with
          | some (PyVal.int a) =>
            Except.ok ({ s with
                address := some (PyVal.int (a ||| ((b &&& 0xff) <<< 7))),
                state := some GET_ADDR_2 },
              Option.none)
          | Option.none => Except.error ("AttributeError: address")
          | some _ => Except.error ("TypeError")
      else if st = GET_ADDR_2 then
        match frame.mosi with
        | [] => Except.error ("IndexError")
        | b :: _ =>
          match s.address, s.address_frame_start with
          | some (PyVal.int a), some t =>
            Except.ok ({ s with
                address := some (PyVal.int (a ||| ((b &&& 0xfe) >>> 1))),
                state := some GET_REGVAL },
              some ⟨"Address", t, frame.end_time,
                [("address", PyVal.str (pyHex (a ||| ((b &&& 0xfe) >>> 1))))]⟩)
          | Option.none, _ => Except.error ("AttributeError: address")
          | some (PyVal.int _), Option.none =>
            Except.error ("AttributeError: address_frame_start")
          | some _, _ => Except.error ("TypeError")
      else if st = GET_REGVAL then
        match frame.mosi with
        | [] => Except.error ("IndexError")
        | b :: _ =>
          Except.ok ({ s with
              data := some (PyVal.int b),
              state := some UNKNOWN },
            some ⟨"Data", frame.start_time, frame.end_time,
              [("data", PyVal.str (pyHex b))]⟩)
      else
        -- no elif matches (e.g. state UNKNOWN): fall through, no
        -- state change, implicit None return
        Except.ok (s, Option.none)
  else if frame.type = "disable" then
    -- source: pass
    Except.ok (s, Option.none)
  else
    Except.ok (s, Option.none)

/-- Feed a list of frames in order, collecting the emitted elements.
An exception aborts the run, as it would abort the Python call. -/
def run (s : HLAState) : List Frame → Except String (HLAState × List AnalyzerFrame)
  | [] => Except.ok (s, [])
  | f :: fs =>
    match decode s f with
    | Except.error e => Except.error e
    | Except.ok (s1, o) =>
      match run s1 fs with
      | Except.error e => Except.error e
      | Except.ok (s2, os) => Except.ok (s2, o.toList ++ os)

/-- SessionStart event. -/
def enableF (t0 t1 : Nat) : Frame := ⟨"enable", [], t0, t1⟩

/-- ByteTransferred event carrying one mosi byte. -/
def resultF (b t0 t1 : Nat) : Frame := ⟨"result", [b], t0, t1⟩

/-- SessionEnd event. -/
def disableF (t0 t1 : Nat) : Frame := ⟨"disable", [], t0, t1⟩

/-- The address accumulated by the GET_ADDR_0/1/2 branches of `decode`
over the three address bytes, with the source's masks. -/
def addrAccum (b0 b1 b2 : Nat) : Nat :=
  ((((b0 &&& 0x70) <<< 24) ||| ((b0 &&& 0x03) <<< 15)) ||| ((b1 &&& 0xff) <<< 7)) ||| ((b2 &&& 0xfe) >>> 1)

/-- Modelled from the spec: the address-assembly formula as written in
the specification, `((byte0 & 0x70) << 24) | ((byte0 & 0x03) << 15) |
(byte1 << 7) | ((byte2 & 0xFE) >> 1)` (byte1 unmasked), for comparison
with `addrAccum`. -/
def specAddress (b0 b1 b2 : Nat) : Nat :=
  (((b0 &&& 0x70) <<< 24) ||| ((b0 &&& 0x03) <<< 15)) ||| (b1 <<< 7) ||| ((b2 &&& 0xFE) >>> 1)

/-- Session of one SessionStart followed by six ByteTransferred
events, with per-event timestamps. -/
def session6 (b1 b2 b3 b4 b5 b6 a0 a1 s1 e1 s2 e2 s3 e3 s4 e4 s5 e5 s6 e6 : Nat) : List Frame :=
  [enableF a0 a1, resultF b1 s1 e1, resultF b2 s2 e2, resultF b3 s3 e3,
   resultF b4 s4 e4, resultF b5 s5 e5, resultF b6 s6 e6]

/-- Truncated session: SessionStart, three ByteTransferred events,
SessionEnd. -/
def truncSession (b1 b2 b3 a0 a1 s1 e1 s2 e2 s3 e3 d0 d1 : Nat) : List Frame :=
  [enableF a0 a1, resultF b1 s1 e1, resultF b2 s2 e2, resultF b3 s3 e3, disableF d0 d1]

/- Helper lemmas (shared; not claim theorems). -/

/-- Running a concatenation of frame lists composes the runs when both
halves succeed. -/
theorem run_append_ok (xs : List Frame) : ∀ (s s1 s2 : HLAState) (o1 o2 : List AnalyzerFrame) (ys : List Frame),
    run s xs = Except.ok (s1, o1) → run s1 ys = Except.ok (s2, o2) →
    run s (xs ++ ys) = Except.ok (s2, o1 ++ o2) := by
  induction xs with
  | nil =>
    intro s s1 s2 o1 o2 ys h1 h2
    simp only [run, Except.ok.injEq, Prod.mk.injEq] at h1
    obtain ⟨rfl, rfl⟩ := h1
    simpa using h2
  | cons f fs ih =>
    intro s s1 s2 o1 o2 ys h1 h2
    cases hd : decode s f with
    | error e => simp [run, hd] at h1
    | ok p =>
      obtain ⟨s', o⟩ := p
      simp only [run, hd] at h1
      cases hr : run s' fs with
      | error e => simp [hr] at h1
      | ok q =>
        obtain ⟨sq, oq⟩ := q
        simp only [hr, Except.ok.injEq, Prod.mk.injEq] at h1
        obtain ⟨rfl, rfl⟩ := h1
        have h3 := ih s' sq s2 oq o2 ys hr h2
        simp only [List.cons_append, run, hd, List.append_eq, h3, List.append_assoc]

/-- Bits of the mask constant 0x70: exactly bits 4, 5, 6. -/
theorem testBit_c112 (j : Nat) : Nat.testBit 112 j = (decide (4 ≤ j) && decide (j ≤ 6)) := by
  rcases Nat.lt_or_ge j 7 with h | h
  · interval_cases j <;> decide
  · have hlt : (112 : Nat) < 2 ^ j :=
      lt_of_lt_of_le (by norm_num) (Nat.pow_le_pow_right (by norm_num) h)
    have h6 : ¬ (j ≤ 6) := by omega
    simp [Nat.testBit_lt_two_pow hlt, h6]

/-- Bits of the mask constant 0x03: exactly bits 0, 1. -/
theorem testBit_c3 (j : Nat) : Nat.testBit 3 j = decide (j ≤ 1) := by
  rcases Nat.lt_or_ge j 2 with h | h
  · interval_cases j <;> decide
  · have hlt : (3 : Nat) < 2 ^ j :=
      lt_of_lt_of_le (by norm_num) (Nat.pow_le_pow_right (by norm_num) h)
    have h1 : ¬ (j ≤ 1) := by omega
    simp [Nat.testBit_lt_two_pow hlt, h1]

/-- Bits of the mask constant 0xff: exactly bits 0..7. -/
theorem testBit_c255 (j : Nat) : Nat.testBit 255 j = decide (j ≤ 7) := by
  rcases Nat.lt_or_ge j 8 with h | h
  · interval_cases j <;> decide
  · have hlt : (255 : Nat) < 2 ^ j :=
      lt_of_lt_of_le (by norm_num) (Nat.pow_le_pow_right (by norm_num) h)
    have h7 : ¬ (j ≤ 7) := by omega
    simp [Nat.testBit_lt_two_pow hlt, h7]

/-- Bits of the mask constant 0xfe: exactly bits 1..7. -/
theorem testBit_c254 (j : Nat) : Nat.testBit 254 j = (decide (1 ≤ j) && decide (j ≤ 7)) := by
  rcases Nat.lt_or_ge j 8 with h | h
  · interval_cases j <;> decide
  · have hlt : (254 : Nat) < 2 ^ j :=
      lt_of_lt_of_le (by norm_num) (Nat.pow_le_pow_right (by norm_num) h)
    have h7 : ¬ (j ≤ 7) := by omega
    simp [Nat.testBit_lt_two_pow hlt, h7]

/-- The accumulated address fits in 31 bits, for all inputs. -/
theorem addrAccum_lt (b0 b1 b2 : Nat) : addrAccum b0 b1 b2 < 2 ^ 31 := by
  have h1 : (b0 &&& 0x70) <<< 24 < 2 ^ 31 := by
    rw [Nat.shiftLeft_eq]
    have hb : b0 &&& 0x70 ≤ 0x70 := Nat.and_le_right
    calc (b0 &&& 0x70) * 2 ^ 24 ≤ 0x70 * 2 ^ 24 := Nat.mul_le_mul_right _ hb
    _ < 2 ^ 31 := by norm_num
  have h2 : (b0 &&& 0x03) <<< 15 < 2 ^ 31 := by
    rw [Nat.shiftLeft_eq]
    have hb : b0 &&& 0x03 ≤ 0x03 := Nat.and_le_right
    calc (b0 &&& 0x03) * 2 ^ 15 ≤ 0x03 * 2 ^ 15 := Nat.mul_le_mul_right _ hb
    _ < 2 ^ 31 := by norm_num
  have h3 : (b1 &&& 0xff) <<< 7 < 2 ^ 31 := by
    rw [Nat.shiftLeft_eq]
    have hb : b1 &&& 0xff ≤ 0xff := Nat.and_le_right
    calc (b1 &&& 0xff) * 2 ^ 7 ≤ 0xff * 2 ^ 7 := Nat.mul_le_mul_right _ hb
    _ < 2 ^ 31 := by norm_num
  have h4 : (b2 &&& 0xfe) >>> 1 < 2 ^ 31 := by
    rw [Nat.shiftRight_eq_div_pow]
    have hb : b2 &&& 0xfe ≤ 0xfe := Nat.and_le_right
    have hd : (b2 &&& 0xfe) / 2 ^ 1 ≤ 0xfe / 2 ^ 1 := Nat.div_le_div_right hb
    omega
  exact Nat.or_lt_two_pow (Nat.or_lt_two_pow (Nat.or_lt_two_pow h1 h2) h3) h4

/-- The accumulated address never sets bits 17..27 or bit 31. -/
theorem addrAccum_testBit_false (b0 b1 b2 i : Nat)
    (hi : (17 ≤ i ∧ i ≤ 27) ∨ i = 31) :
    Nat.testBit (addrAccum b0 b1 b2) i = false := by
  unfold addrAccum
  rcases hi with ⟨h1, h2⟩ | rfl
  · interval_cases i <;>
      simp [Nat.testBit_lor, Nat.testBit_shiftLeft, Nat.testBit_shiftRight,
        Nat.testBit_land, testBit_c112, testBit_c3, testBit_c255, testBit_c254]
  · simp [Nat.testBit_lor, Nat.testBit_shiftLeft, Nat.testBit_shiftRight,
      Nat.testBit_land, testBit_c112, testBit_c3, testBit_c255, testBit_c254]

/-- Masking a byte value with 0xff is the identity. -/
theorem mask255 : ∀ m, m < 256 → m &&& 0xff = m := by decide

/-- Full run of one SessionStart plus six ByteTransferred events, from
an arbitrary starting state. -/
theorem run_session6_eq (s : HLAState) (b1 b2 b3 b4 b5 b6 a0 a1 s1 e1 s2 e2 s3 e3 s4 e4 s5 e5 s6 e6 : Nat) :
    run s (session6 b1 b2 b3 b4 b5 b6 a0 a1 s1 e1 s2 e2 s3 e3 s4 e4 s5 e5 s6 e6) =
      Except.ok (⟨some UNKNOWN, some (PyVal.int (b2 &&& 0x3F)),
          some (PyVal.int (addrAccum b3 b4 b5)), some (PyVal.int b6), some s3⟩,
        [⟨"Header", s1, e1, [("header", PyVal.str ("Head"))]⟩,
         ⟨"Instruction", s2, e2, [("instruction", PyVal.int (b2 &&& 0x3F))]⟩,
         ⟨"Address", s3, e5, [("address", PyVal.str (pyHex (addrAccum b3 b4 b5)))]⟩,
         ⟨"Data", s6, e6, [("data", PyVal.str (pyHex b6))]⟩]) := rfl

/-- Full run of a session plus trailing SessionEnd, from an arbitrary
starting state. -/
theorem run_session6d_eq (s : HLAState) (b1 b2 b3 b4 b5 b6 a0 a1 s1 e1 s2 e2 s3 e3 s4 e4 s5 e5 s6 e6 d0 d1 : Nat) :
    run s (session6 b1 b2 b3 b4 b5 b6 a0 a1 s1 e1 s2 e2 s3 e3 s4 e4 s5 e5 s6 e6 ++ [disableF d0 d1]) =
      Except.ok (⟨some UNKNOWN, some (PyVal.int (b2 &&& 0x3F)),
          some (PyVal.int (addrAccum b3 b4 b5)), some (PyVal.int b6), some s3⟩,
        [⟨"Header", s1, e1, [("header", PyVal.str ("Head"))]⟩,
         ⟨"Instruction", s2, e2, [("instruction", PyVal.int (b2 &&& 0x3F))]⟩,
         ⟨"Address", s3, e5, [("address", PyVal.str (pyHex (addrAccum b3 b4 b5)))]⟩,
         ⟨"Data", s6, e6, [("data", PyVal.str (pyHex b6))]⟩]) := rfl

/-- Run of a truncated session (SessionStart, three bytes, SessionEnd)
from an arbitrary starting state. -/
theorem run_trunc_eq (s : HLAState) (b1 b2 b3 a0 a1 s1 e1 s2 e2 s3 e3 d0 d1 : Nat) :
    run s (truncSession b1 b2 b3 a0 a1 s1 e1 s2 e2 s3 e3 d0 d1) =
      Except.ok (⟨some GET_ADDR_1, some (PyVal.int (b2 &&& 0x3F)),
          some (PyVal.int (((b3 &&& 0x70) <<< 24) ||| ((b3 &&& 0x03) <<< 15))),
          some (PyVal.int b2), some s3⟩,
        [⟨"Header", s1, e1, [("header", PyVal.str ("Head"))]⟩,
         ⟨"Instruction", s2, e2, [("instruction", PyVal.int (b2 &&& 0x3F))]⟩]) := rfl

/- Claim theorems. -/

/-- C1: a session fed as one SessionStart ('enable') event followed by
six ByteTransferred ('result') events makes the decoder emit exactly
four elements, in order: Header on byte 1, Instruction on byte 2,
Address on byte 5 (spanning the start of byte 3 to the end of byte 5),
Data on byte 6; bytes 3 and 4 emit nothing. -/
theorem C1_session_emits_four_elements (b1 b2 b3 b4 b5 b6 a0 a1 s1 e1 s2 e2 s3 e3 s4 e4 s5 e5 s6 e6 : Nat) :
    run initHLA (session6 b1 b2 b3 b4 b5 b6 a0 a1 s1 e1 s2 e2 s3 e3 s4 e4 s5 e5 s6 e6) =
      Except.ok (⟨some UNKNOWN, some (PyVal.int (b2 &&& 0x3F)),
          some (PyVal.int (addrAccum b3 b4 b5)), some (PyVal.int b6), some s3⟩,
        [⟨"Header", s1, e1, [("header", PyVal.str ("Head"))]⟩,
         ⟨"Instruction", s2, e2, [("instruction", PyVal.int (b2 &&& 0x3F))]⟩,
         ⟨"Address", s3, e5, [("address", PyVal.str (pyHex (addrAccum b3 b4 b5)))]⟩,
         ⟨"Data", s6, e6, [("data", PyVal.str (pyHex b6))]⟩]) :=
  run_session6_eq initHLA b1 b2 b3 b4 b5 b6 a0 a1 s1 e1 s2 e2 s3 e3 s4 e4 s5 e5 s6 e6

/-- C2: for address bytes b3 b4 b5 (each below 256) the emitted Address
element carries exactly the value
`((b3 & 0x70) << 24) | ((b3 & 0x03) << 15) | (b4 << 7) | ((b5 & 0xFE) >> 1)`
(rendered through Python hex), over the interval from the first address
byte's start time to the third address byte's end time; and for bytes
(0x10, 0x20, 0x30) that value is 0x10001018. -/
theorem C2_address_assembly (b1 b2 b3 b4 b5 b6 a0 a1 s1 e1 s2 e2 s3 e3 s4 e4 s5 e5 s6 e6 : Nat)
    (h3 : b3 < 256) (h4 : b4 < 256) (h5 : b5 < 256) :
    (∃ st hdr ins dat,
      run initHLA (session6 b1 b2 b3 b4 b5 b6 a0 a1 s1 e1 s2 e2 s3 e3 s4 e4 s5 e5 s6 e6) =
        Except.ok (st, [hdr, ins,
          ⟨"Address", s3, e5, [("address", PyVal.str (pyHex (specAddress b3 b4 b5)))]⟩, dat])) ∧
    specAddress 0x10 0x20 0x30 = 0x10001018 := by
  constructor
  · have ha : addrAccum b3 b4 b5 = specAddress b3 b4 b5 := by
      unfold addrAccum specAddress
      rw [mask255 b4 h4]
    refine ⟨⟨some UNKNOWN, some (PyVal.int (b2 &&& 0x3F)),
        some (PyVal.int (addrAccum b3 b4 b5)), some (PyVal.int b6), some s3⟩,
      ⟨"Header", s1, e1, [("header", PyVal.str ("Head"))]⟩,
      ⟨"Instruction", s2, e2, [("instruction", PyVal.int (b2 &&& 0x3F))]⟩,
      ⟨"Data", s6, e6, [("data", PyVal.str (pyHex b6))]⟩, ?_⟩
    rw [← ha]
    exact run_session6_eq initHLA b1 b2 b3 b4 b5 b6 a0 a1 s1 e1 s2 e2 s3 e3 s4 e4 s5 e5 s6 e6
  · decide

/-- Witness for C2 at address bytes (0x10, 0x20, 0x30). -/
theorem C2_address_assembly_witness :
    (0x10 : Nat) < 256 ∧ (0x20 : Nat) < 256 ∧ (0x30 : Nat) < 256 ∧
    ((∃ st hdr ins dat,
      run initHLA (session6 0 0 0x10 0x20 0x30 0 0 0 0 0 0 0 0 0 0 0 0 0 0 0) =
        Except.ok (st, [hdr, ins,
          ⟨"Address", 0, 0, [("address", PyVal.str (pyHex (specAddress 0x10 0x20 0x30)))]⟩, dat])) ∧
    specAddress 0x10 0x20 0x30 = 0x10001018) :=
  ⟨by decide, by decide, by decide,
    C2_address_assembly 0 0 0x10 0x20 0x30 0 0 0 0 0 0 0 0 0 0 0 0 0 0 0
      (by decide) (by decide) (by decide)⟩

/-- C3 counterexample: the mode bits of register byte 0xC0 are 0x03,
but `mode_str` has no Reserved branch and returns Python None for
them, not a Reserved classification. -/
theorem C3_reserved_counterexample :
    decode_mode 0xC0 = 0x03 ∧ mode_str (decode_mode 0xC0) = Option.none :=
  ⟨rfl, rfl⟩

/-- C3 amended: the mode bits are `(v & 0xC0) >> 6`; the mapping is
0x00 to Byte, 0x01 to Sequential, 0x02 to Page, and any other mode
value, including 0x03, yields no string (Python None) rather than a
Reserved value; register bytes 0x00, 0x40, 0x80 decode to Byte,
Sequential, Page, and 0xC0 to None. -/
theorem C3_mode_decode_amended :
    (∀ v : Nat, decode_mode v = (v &&& 0xC0) >>> 6) ∧
    mode_str 0x00 = some ("Byte") ∧ mode_str 0x01 = some ("Sequential") ∧
    mode_str 0x02 = some ("Page") ∧ mode_str 0x03 = Option.none ∧
    mode_str (decode_mode 0x00) = some ("Byte") ∧
    mode_str (decode_mode 0x40) = some ("Sequential") ∧
    mode_str (decode_mode 0x80) = some ("Page") ∧
    mode_str (decode_mode 0xC0) = Option.none :=
  ⟨fun _ => rfl, rfl, rfl, rfl, rfl, rfl, rfl, rfl, rfl⟩

/-- C4 counterexample: `instruction_str` applied to the opcode masked
to its low 6 bits (a Python int) classifies 0x02 as Unknown, not as
Write, because the function compares its argument against `bytes`
constants and Python `int == bytes` is always False. -/
theorem C4_masked_opcode_counterexample :
    instruction_str (PyVal.int (0x02 &&& 0x3F)) = "Unknown" ∧
    instruction_str (PyVal.int (0x02 &&& 0x3F)) ≠ "Write" :=
  ⟨rfl, by decide⟩

/-- C4 amended: `instruction_str` maps the one-byte `bytes` values
0x02, 0x03, 0x01, 0x05 to Write, Read, Write Mode Register, Read Mode
Register and every other bytes value to Unknown, returned normally and
never raised; applied to any int, including the opcode masked to its
low 6 bits, it returns Unknown for every value. -/
theorem C4_opcode_classification_amended :
    (∀ n : Nat, instruction_str (PyVal.int n) = "Unknown") ∧
    (∀ l : List Nat, instruction_str (PyVal.bytes l) =
      if l = [0x02] then ("Write")
      else if l = [0x03] then ("Read")
      else if l = [0x01] then ("Write Mode Register")
      else if l = [0x05] then ("Read Mode Register")
      else ("Unknown")) := by
  constructor
  · intro n; rfl
  · intro l
    simp only [instruction_str, pyEq, WRITE_INS, READ_INS, WRMR_INS, RMDR_INS]
    by_cases h2 : l = [0x02] <;> by_cases h3 : l = [0x03] <;>
      by_cases h1 : l = [0x01] <;> by_cases h5 : l = [0x05] <;> simp_all

/-- C5: contrary to the no-fault claim, a ByteTransferred ('result')
event fed to a freshly constructed decoder raises AttributeError,
because `__init__` assigns the local variable `state` instead of
`self.state`; the byte is not processed as an Idle-phase opening
byte. -/
theorem C5_fresh_decoder_byte_raises (b t0 t1 : Nat) :
    decode initHLA (resultF b t0 t1) = Except.error ("AttributeError: state") := rfl

/-- C6: a SessionStart ('enable') event sets the phase to START from
every decoder state, whatever phase it was in; the reset is
unconditional. -/
theorem C6_session_start_resets_phase (s : HLAState) (m : List Nat) (t0 t1 : Nat) :
    decode s ⟨"enable", m, t0, t1⟩ =
      Except.ok ({ s with state := some START }, Option.none) := rfl

/-- C7: a truncated session (SessionStart, three bytes, SessionEnd)
started from any decoder state emits exactly Header and Instruction,
with SessionEnd emitting nothing and raising nothing; and any positive
number of back-to-back repetitions of that truncated session emits
exactly the corresponding repetitions of Header then Instruction,
always reaching the same final state. -/
theorem C7_truncated_session (b1 b2 b3 a0 a1 s1 e1 s2 e2 s3 e3 d0 d1 : Nat) :
    (∀ s : HLAState, run s (truncSession b1 b2 b3 a0 a1 s1 e1 s2 e2 s3 e3 d0 d1) =
      Except.ok (⟨some GET_ADDR_1, some (PyVal.int (b2 &&& 0x3F)),
          some (PyVal.int (((b3 &&& 0x70) <<< 24) ||| ((b3 &&& 0x03) <<< 15))),
          some (PyVal.int b2), some s3⟩,
        [⟨"Header", s1, e1, [("header", PyVal.str ("Head"))]⟩,
         ⟨"Instruction", s2, e2, [("instruction", PyVal.int (b2 &&& 0x3F))]⟩])) ∧
    (∀ n : Nat, ∀ s : HLAState,
      run s (List.flatten (List.replicate (n + 1) (truncSession b1 b2 b3 a0 a1 s1 e1 s2 e2 s3 e3 d0 d1))) =
        Except.ok (⟨some GET_ADDR_1, some (PyVal.int (b2 &&& 0x3F)),
            some (PyVal.int (((b3 &&& 0x70) <<< 24) ||| ((b3 &&& 0x03) <<< 15))),
            some (PyVal.int b2), some s3⟩,
          List.flatten (List.replicate (n + 1)
            [⟨"Header", s1, e1, [("header", PyVal.str ("Head"))]⟩,
             ⟨"Instruction", s2, e2, [("instruction", PyVal.int (b2 &&& 0x3F))]⟩]))) := by
  refine ⟨fun s => run_trunc_eq s b1 b2 b3 a0 a1 s1 e1 s2 e2 s3 e3 d0 d1, ?_⟩
  intro n
  induction n with
  | zero =>
    intro s
    simpa [List.replicate_succ] using run_trunc_eq s b1 b2 b3 a0 a1 s1 e1 s2 e2 s3 e3 d0 d1
  | succ k ih =>
    intro s
    rw [List.replicate_succ, List.flatten_cons]
    have h2 := ih (⟨some GET_ADDR_1, some (PyVal.int (b2 &&& 0x3F)),
      some (PyVal.int (((b3 &&& 0x70) <<< 24) ||| ((b3 &&& 0x03) <<< 15))),
      some (PyVal.int b2), some s3⟩ : HLAState)
    have h3 := run_append_ok _ s _ _ _ _ _
      (run_trunc_eq s b1 b2 b3 a0 a1 s1 e1 s2 e2 s3 e3 d0 d1) h2
    rw [h3]
    simp [List.replicate_succ, List.flatten_cons, List.append_assoc]

/-- C8: no state leaks across a session boundary: a full six-byte
session (with trailing SessionEnd) run from any decoder state gives
exactly the run of a fresh decoder; consequently feeding any first
event list S1 that the decoder accepts, then the session, appends to
S1's output exactly the fresh decoder's output for the session, with
the same final state. -/
theorem C8_no_state_leak (b1 b2 b3 b4 b5 b6 a0 a1 s1 e1 s2 e2 s3 e3 s4 e4 s5 e5 s6 e6 d0 d1 : Nat) :
    (∀ s : HLAState,
      run s (session6 b1 b2 b3 b4 b5 b6 a0 a1 s1 e1 s2 e2 s3 e3 s4 e4 s5 e5 s6 e6 ++ [disableF d0 d1]) =
      run initHLA (session6 b1 b2 b3 b4 b5 b6 a0 a1 s1 e1 s2 e2 s3 e3 s4 e4 s5 e5 s6 e6 ++ [disableF d0 d1])) ∧
    (∀ (S1 : List Frame) (sp : HLAState) (o1 : List AnalyzerFrame),
      run initHLA S1 = Except.ok (sp, o1) →
      ∃ F O,
        run initHLA (session6 b1 b2 b3 b4 b5 b6 a0 a1 s1 e1 s2 e2 s3 e3 s4 e4 s5 e5 s6 e6 ++ [disableF d0 d1]) =
          Except.ok (F, O) ∧
        run initHLA (S1 ++ (session6 b1 b2 b3 b4 b5 b6 a0 a1 s1 e1 s2 e2 s3 e3 s4 e4 s5 e5 s6 e6 ++ [disableF d0 d1])) =
          Except.ok (F, o1 ++ O)) := by
  constructor
  · intro s
    rw [run_session6d_eq s b1 b2 b3 b4 b5 b6 a0 a1 s1 e1 s2 e2 s3 e3 s4 e4 s5 e5 s6 e6 d0 d1,
      run_session6d_eq initHLA b1 b2 b3 b4 b5 b6 a0 a1 s1 e1 s2 e2 s3 e3 s4 e4 s5 e5 s6 e6 d0 d1]
  · intro S1 sp o1 h
    exact ⟨_, _,
      run_session6d_eq initHLA b1 b2 b3 b4 b5 b6 a0 a1 s1 e1 s2 e2 s3 e3 s4 e4 s5 e5 s6 e6 d0 d1,
      run_append_ok S1 initHLA sp _ o1 _ _ h
        (run_session6d_eq sp b1 b2 b3 b4 b5 b6 a0 a1 s1 e1 s2 e2 s3 e3 s4 e4 s5 e5 s6 e6 d0 d1)⟩

/-- Witness for C8: S1 a single SessionStart event, followed by an
all-zero full session. -/
theorem C8_no_state_leak_witness :
    ∃ F O,
      run initHLA (session6 0 0 0 0 0 0 0 0 0 0 0 0 0 0 0 0 0 0 0 0 ++ [disableF 0 0]) =
        Except.ok (F, O) ∧
      run initHLA ([enableF 0 1] ++ (session6 0 0 0 0 0 0 0 0 0 0 0 0 0 0 0 0 0 0 0 0 ++ [disableF 0 0])) =
        Except.ok (F, ([] : List AnalyzerFrame) ++ O) :=
  (C8_no_state_leak 0 0 0 0 0 0 0 0 0 0 0 0 0 0 0 0 0 0 0 0 0 0).2
    [enableF 0 1] ⟨some START, Option.none, Option.none, Option.none, Option.none⟩ [] rfl

/-- C9: a SessionEnd ('disable') event returns no element and leaves
every attribute of the decoder exactly as it was. -/
theorem C9_disable_no_frame_effect (s : HLAState) (m : List Nat) (t0 t1 : Nat) :
    decode s ⟨"disable", m, t0, t1⟩ = Except.ok (s, Option.none) := rfl

/-- C10: for address input bytes below 256 the assembled address is
below 2^31, has bits 17..27 and bit 31 clear, and any set bit lies in
the ranges 0..6, 7..14, 15..16 or 28..30. -/
theorem C10_address_bit_invariant (b0 b1 b2 : Nat)
    (h0 : b0 < 256) (h1 : b1 < 256) (h2 : b2 < 256) :
    addrAccum b0 b1 b2 < 2 ^ 31 ∧
    (∀ i : Nat, (17 ≤ i ∧ i ≤ 27) ∨ i = 31 → Nat.testBit (addrAccum b0 b1 b2) i = false) ∧
    (∀ i : Nat, Nat.testBit (addrAccum b0 b1 b2) i = true →
      i ≤ 6 ∨ (7 ≤ i ∧ i ≤ 14) ∨ (15 ≤ i ∧ i ≤ 16) ∨ (28 ≤ i ∧ i ≤ 30)) := by
  refine ⟨addrAccum_lt b0 b1 b2, fun i hi => addrAccum_testBit_false b0 b1 b2 i hi, fun i hbit => ?_⟩
  by_contra hne
  push_neg at hne
  have hcase : (17 ≤ i ∧ i ≤ 27) ∨ i = 31 ∨ 32 ≤ i := by omega
  rcases hcase with hc | hc | hc
  · rw [addrAccum_testBit_false b0 b1 b2 i (Or.inl hc)] at hbit
    simp at hbit
  · rw [addrAccum_testBit_false b0 b1 b2 i (Or.inr hc)] at hbit
    simp at hbit
  · have hlt : addrAccum b0 b1 b2 < 2 ^ i :=
      lt_of_lt_of_le (addrAccum_lt b0 b1 b2)
        (Nat.pow_le_pow_right (by norm_num) (by omega))
    rw [Nat.testBit_lt_two_pow hlt] at hbit
    simp at hbit

/-- Witness for C10 at address bytes (0x10, 0x20, 0x30). -/
theorem C10_address_bit_invariant_witness :
    (0x10 : Nat) < 256 ∧ (0x20 : Nat) < 256 ∧ (0x30 : Nat) < 256 ∧
    (addrAccum 0x10 0x20 0x30 < 2 ^ 31 ∧
    (∀ i : Nat, (17 ≤ i ∧ i ≤ 27) ∨ i = 31 → Nat.testBit (addrAccum 0x10 0x20 0x30) i = false) ∧
    (∀ i : Nat, Nat.testBit (addrAccum 0x10 0x20 0x30) i = true →
      i ≤ 6 ∨ (7 ≤ i ∧ i ≤ 14) ∨ (15 ≤ i ∧ i ≤ 16) ∨ (28 ≤ i ∧ i ≤ 30))) :=
  ⟨by decide, by decide, by decide,
    C10_address_bit_invariant 0x10 0x20 0x30 (by decide) (by decide) (by decide)⟩
